import Mathlib

/-!
Shallow embedding of the monitored-item service layer in
src/src/services/MonitoredItem.cpp (namespace opcua::services).

Conventions of the embedding:
- UA status codes are natural numbers below 2 to the 32; the two top bits
  hold the severity, and a status is bad when those bits are at least 2.
- Exceptions thrown by detail::throwOnBadStatus are embedded as
  Except.error carrying the status code.
- std::function callback members are embedded as Option Nat: none is the
  empty function object, some n a non-empty one identified by an opaque
  token n.  A dispatcher invocation of such a callback is recorded as an
  element of a List Event, the observable trace of the dispatcher.
- The per-connection registries (ClientContext::monitoredItems keyed by
  pairs, ServerContext::monitoredItems keyed by single ids) are embedded
  as association lists with map semantics for erase / insert_or_assign.
- Calls into the external native stack are embedded by passing the native
  response as an argument (creation / modification, where the peer decides
  the response) or, for deletion, by a small model of the native
  bookkeeping taken from the spec's description of the collaborator.
- Opaque payloads that are only stored or forwarded (UA_ReadValueId,
  UA_DataValue, UA_Variant) are embedded as natural numbers; the C++
  double samplingInterval is only copied, never computed with, so it is
  embedded as an integer.
-/

/-- UA status code: a 32-bit unsigned integer whose top two bits give the severity. -/
abbrev StatusCode := Nat

/-- Severity test used by detail::throwOnBadStatus: a status is bad when its
severity bits (bits 30 and 31) are at least 2. -/
def isBadStatus (s : StatusCode) : Bool := decide (2 ≤ s / 2 ^ 30)

/-- The good status code. -/
def UA_STATUSCODE_GOOD : StatusCode := 0

/-- Status thrown by modifyMonitoredItem and setMonitoringMode when the
response does not hold exactly one result. -/
def UA_STATUSCODE_BADUNEXPECTEDERROR : StatusCode := 0x80010000

/-- Status reported by the native stack for an unknown monitored-item id. -/
def UA_STATUSCODE_BADMONITOREDITEMIDINVALID : StatusCode := 0x80420000

/-- Modelled from the spec: detail::throwOnBadStatus (ErrorHandling.h of this
repository, not under src/) throws a BadStatus exception carrying the status
code when the status is bad and returns normally otherwise (spec section 7:
peer-reported failures propagate as typed failures on the calling operation's
return path). -/
def throwOnBadStatus (s : StatusCode) : Except StatusCode Unit :=
  if isBadStatus s then Except.error s else Except.ok ()

/-- Opaque node and attribute descriptor (UA_ReadValueId); only stored and copied. -/
abbrev ReadValueId := Nat

/-- Opaque data value payload (UA_DataValue); only forwarded to callbacks. -/
abbrev DataValue := Nat

/-- Opaque variant payload (UA_Variant); only forwarded to event callbacks. -/
abbrev Variant := Nat

/-- Monitoring mode enumeration. -/
inductive MonitoringMode where
  | disabled
  | sampling
  | reporting
deriving DecidableEq

/-- UA_EventFilter reduced to its observable content: lists of opaque select
clauses and where clauses.  A value-initialised UA_EventFilter has empty
clause arrays. -/
structure UA_EventFilter where
  selectClauses : List Nat
  whereClauses : List Nat
deriving DecidableEq

/-- The value-initialised (empty) event filter, as built at line 189 of the source. -/
def UA_EventFilter.empty : UA_EventFilter := { selectClauses := [], whereClauses := [] }

/-- The caller-facing MonitoringParameters structure. -/
structure MonitoringParameters where
  samplingInterval : Int
  queueSize : Nat
  discardOldest : Bool
  timestamps : Nat
deriving DecidableEq

/-- UA_MonitoringParameters as placed in a create request.  The filter member
is a UA_ExtensionObject: none embeds the value-initialised (unset) extension
object, some f an attached decoded event filter f. -/
structure UA_MonitoringParameters where
  samplingInterval : Int
  queueSize : Nat
  discardOldest : Bool
  filter : Option UA_EventFilter
deriving DecidableEq

/-- UA_MonitoredItemCreateRequest with the fields the source populates. -/
structure UA_MonitoredItemCreateRequest where
  itemToMonitor : ReadValueId
  monitoringMode : MonitoringMode
  requestedParameters : UA_MonitoringParameters
deriving DecidableEq

/-- UA_MonitoredItemCreateResult with the fields the source consumes. -/
structure UA_MonitoredItemCreateResult where
  statusCode : StatusCode
  monitoredItemId : Nat
  revisedSamplingInterval : Int
  revisedQueueSize : Nat
deriving DecidableEq

/-- ClientContext::MonitoredItem: the owned callback context of one
client-side monitored item. -/
structure ClientMonitoredItem where
  itemToMonitor : ReadValueId
  dataChangeCallback : Option Nat
  eventCallback : Option Nat
  deleteCallback : Option Nat
deriving DecidableEq

/-- ServerContext::MonitoredItem: the owned callback context of one
server-side monitored item. -/
structure ServerMonitoredItem where
  itemToMonitor : ReadValueId
  dataChangeCallback : Option Nat
deriving DecidableEq

/-- ClientContext::monitoredItems: map from (subscriptionId, monitoredItemId)
to the owned context, embedded as an association list. -/
abbrev ClientRegistry := List ((Nat × Nat) × ClientMonitoredItem)

/-- ServerContext::monitoredItems: map from monitoredItemId to the owned context. -/
abbrev ServerRegistry := List (Nat × ServerMonitoredItem)

/-- Map erase on the client registry: removes any entry with the given key. -/
def clientErase (k : Nat × Nat) (r : ClientRegistry) : ClientRegistry :=
  r.filter (fun e => ! decide (e.1 = k))

/-- Map insert_or_assign on the client registry. -/
def clientInsertOrAssign (k : Nat × Nat) (v : ClientMonitoredItem) (r : ClientRegistry) :
    ClientRegistry :=
  (k, v) :: clientErase k r

/-- Map lookup on the client registry; models the context address the native
stack stored for the key (none when no entry exists). -/
def clientFind (k : Nat × Nat) (r : ClientRegistry) : Option ClientMonitoredItem :=
  match r.find? (fun e => decide (e.1 = k)) with
  | some e => some e.2
  | none => none

/-- Map erase on the server registry. -/
def serverErase (k : Nat) (r : ServerRegistry) : ServerRegistry :=
  r.filter (fun e => ! decide (e.1 = k))

/-- Map insert_or_assign on the server registry. -/
def serverInsertOrAssign (k : Nat) (v : ServerMonitoredItem) (r : ServerRegistry) :
    ServerRegistry :=
  (k, v) :: serverErase k r

/-- Observable actions of the dispatcher functions: invocations of stored user
callbacks (identified by their opaque token) and registry erasures. -/
inductive Event where
  | invokeDataChange (callback subId monId : Nat) (value : DataValue)
  | invokeEvent (callback subId monId : Nat) (eventFields : List Variant)
  | invokeDelete (callback subId monId : Nat)
  | eraseEntry (subId monId : Nat)
deriving DecidableEq

/-- dataChangeNotificationCallback, server overload (source lines 17 to 33):
returns when the context address is null, otherwise invokes the stored
data-change callback if it is non-empty, with subscription id 0. -/
def dataChangeNotificationCallbackServer (monitoredItemId : Nat)
    (monitoredItemContext : Option ServerMonitoredItem) (value : DataValue) : List Event :=
  match monitoredItemContext with
  | none => []
  | some monitoredItem =>
    match monitoredItem.dataChangeCallback with
    | some callback => [Event.invokeDataChange callback 0 monitoredItemId value]
    | none => []

/-- dataChangeNotificationCallback, client overload (source lines 35 to 50). -/
def dataChangeNotificationCallbackClient (subId monId : Nat)
    (monContext : Option ClientMonitoredItem) (value : DataValue) : List Event :=
  match monContext with
  | none => []
  | some monitoredItem =>
    match monitoredItem.dataChangeCallback with
    | some callback => [Event.invokeDataChange callback subId monId value]
    | none => []

/-- eventNotificationCallback (source lines 52 to 69). -/
def eventNotificationCallback (subId monId : Nat)
    (monContext : Option ClientMonitoredItem) (eventFields : List Variant) : List Event :=
  match monContext with
  | none => []
  | some monitoredItem =>
    match monitoredItem.eventCallback with
    | some callback => [Event.invokeEvent callback subId monId eventFields]
    | none => []

/-- Result of the delete-confirmation dispatcher: its observable event trace,
in order, and the client registry after the call. -/
structure DispatchOutcome where
  events : List Event
  registryAfter : ClientRegistry
deriving DecidableEq

/-- deleteMonitoredItemCallback (source lines 71 to 86): invokes the stored
delete callback when the context address is non-null and the callback is
non-empty, then unconditionally erases the registry entry for
(subId, monId). -/
def deleteMonitoredItemCallback (subId monId : Nat)
    (monContext : Option ClientMonitoredItem) (registry : ClientRegistry) : DispatchOutcome :=
  let callbackEvents :=
    match monContext with
    | some monitoredItem =>
      match monitoredItem.deleteCallback with
      | some callback => [Event.invokeDelete callback subId monId]
      | none => []
    | none => []
  { events := callbackEvents ++ [Event.eraseEntry subId monId]
    registryAfter := clientErase (subId, monId) registry }

/-- Result of a monitored-item creation wrapper: the request it sent to the
native stack, its outcome (the returned id or the thrown status), and the
caller's parameters structure and the registry after the call. -/
structure CreateOutcome (Registry : Type) where
  requestSent : UA_MonitoredItemCreateRequest
  outcome : Except StatusCode Nat
  parametersAfter : MonitoringParameters
  registryAfter : Registry

/-- Request construction shared by both createMonitoredItemDataChange
overloads (source lines 97 to 102 and 140 to 145): the filter member of the
requested parameters is left value-initialised, no decoded filter attached. -/
def buildDataChangeCreateRequest (itemToMonitor : ReadValueId)
    (monitoringMode : MonitoringMode) (parameters : MonitoringParameters) :
    UA_MonitoredItemCreateRequest :=
  { itemToMonitor := itemToMonitor
    monitoringMode := monitoringMode
    requestedParameters :=
      { samplingInterval := parameters.samplingInterval
        queueSize := parameters.queueSize
        discardOldest := parameters.discardOldest
        filter := none } }

/-- Request construction of createMonitoredItemEvent (source lines 182 to
194): a fresh, value-initialised and hence empty UA_EventFilter is attached as
the decoded filter.  The function has no caller-supplied filter input at all;
the source marks this with a TODO comment at line 188. -/
def buildEventCreateRequest (itemToMonitor : ReadValueId)
    (monitoringMode : MonitoringMode) (parameters : MonitoringParameters) :
    UA_MonitoredItemCreateRequest :=
  { itemToMonitor := itemToMonitor
    monitoringMode := monitoringMode
    requestedParameters :=
      { samplingInterval := parameters.samplingInterval
        queueSize := parameters.queueSize
        discardOldest := parameters.discardOldest
        filter := some UA_EventFilter.empty } }

/-- createMonitoredItemDataChange, client overload (source lines 88 to 131).
The native call is embedded by its response, the argument result.  On a bad
result status the wrapper throws before touching the caller's parameters or
the registry; on success it writes the revised parameters back and inserts the
new context under (subscriptionId, monitoredItemId). -/
def createMonitoredItemDataChangeClient (registry : ClientRegistry)
    (subscriptionId : Nat) (itemToMonitor : ReadValueId)
    (monitoringMode : MonitoringMode) (parameters : MonitoringParameters)
    (dataChangeCallback deleteCallback : Option Nat)
    (result : UA_MonitoredItemCreateResult) : CreateOutcome ClientRegistry :=
  let request := buildDataChangeCreateRequest itemToMonitor monitoringMode parameters
  let monitoredItemContext : ClientMonitoredItem :=
    { itemToMonitor := itemToMonitor
      dataChangeCallback := dataChangeCallback
      eventCallback := none
      deleteCallback := deleteCallback }
  match throwOnBadStatus result.statusCode with
  | Except.error s =>
    { requestSent := request
      outcome := Except.error s
      parametersAfter := parameters
      registryAfter := registry }
  | Except.ok _ =>
    let parameters' := { parameters with
      samplingInterval := result.revisedSamplingInterval
      queueSize := result.revisedQueueSize }
    let monitoredItemId := result.monitoredItemId
    { requestSent := request
      outcome := Except.ok monitoredItemId
      parametersAfter := parameters'
      registryAfter :=
        clientInsertOrAssign (subscriptionId, monitoredItemId) monitoredItemContext registry }

/-- createMonitoredItemDataChange, server overload (source lines 133 to 171). -/
def createMonitoredItemDataChangeServer (registry : ServerRegistry)
    (itemToMonitor : ReadValueId) (monitoringMode : MonitoringMode)
    (parameters : MonitoringParameters) (dataChangeCallback : Option Nat)
    (result : UA_MonitoredItemCreateResult) : CreateOutcome ServerRegistry :=
  let request := buildDataChangeCreateRequest itemToMonitor monitoringMode parameters
  let monitoredItemContext : ServerMonitoredItem :=
    { itemToMonitor := itemToMonitor
      dataChangeCallback := dataChangeCallback }
  match throwOnBadStatus result.statusCode with
  | Except.error s =>
    { requestSent := request
      outcome := Except.error s
      parametersAfter := parameters
      registryAfter := registry }
  | Except.ok _ =>
    let parameters' := { parameters with
      samplingInterval := result.revisedSamplingInterval
      queueSize := result.revisedQueueSize }
    let monitoredItemId := result.monitoredItemId
    { requestSent := request
      outcome := Except.ok monitoredItemId
      parametersAfter := parameters'
      registryAfter := serverInsertOrAssign monitoredItemId monitoredItemContext registry }

/-- createMonitoredItemEvent (source lines 173 to 223); client role only. -/
def createMonitoredItemEvent (registry : ClientRegistry) (subscriptionId : Nat)
    (itemToMonitor : ReadValueId) (monitoringMode : MonitoringMode)
    (parameters : MonitoringParameters)
    (eventCallback deleteCallback : Option Nat)
    (result : UA_MonitoredItemCreateResult) : CreateOutcome ClientRegistry :=
  let request := buildEventCreateRequest itemToMonitor monitoringMode parameters
  let monitoredItemContext : ClientMonitoredItem :=
    { itemToMonitor := itemToMonitor
      dataChangeCallback := none
      eventCallback := eventCallback
      deleteCallback := deleteCallback }
  match throwOnBadStatus result.statusCode with
  | Except.error s =>
    { requestSent := request
      outcome := Except.error s
      parametersAfter := parameters
      registryAfter := registry }
  | Except.ok _ =>
    let parameters' := { parameters with
      samplingInterval := result.revisedSamplingInterval
      queueSize := result.revisedQueueSize }
    let monitoredItemId := result.monitoredItemId
    { requestSent := request
      outcome := Except.ok monitoredItemId
      parametersAfter := parameters'
      registryAfter :=
        clientInsertOrAssign (subscriptionId, monitoredItemId) monitoredItemContext registry }

/-- UA_MonitoredItemModifyResult with the fields the source consumes. -/
structure UA_MonitoredItemModifyResult where
  statusCode : StatusCode
  revisedSamplingInterval : Int
  revisedQueueSize : Nat
deriving DecidableEq

/-- UA_ModifyMonitoredItemsResponse with the fields the source consumes. -/
structure UA_ModifyMonitoredItemsResponse where
  serviceResult : StatusCode
  results : List UA_MonitoredItemModifyResult
deriving DecidableEq

/-- Result of modifyMonitoredItem: its outcome and the caller's parameters
structure after the call. -/
structure ModifyOutcome where
  outcome : Except StatusCode Unit
  parametersAfter : MonitoringParameters

/-- modifyMonitoredItem (source lines 225 to 256): throws on a bad service
result, then on a result count other than one, then on a bad per-item status;
only then writes the revised parameters back. -/
def modifyMonitoredItem (subscriptionId monitoredItemId : Nat)
    (parameters : MonitoringParameters)
    (response : UA_ModifyMonitoredItemsResponse) : ModifyOutcome :=
  match throwOnBadStatus response.serviceResult with
  | Except.error s => { outcome := Except.error s, parametersAfter := parameters }
  | Except.ok _ =>
    match response.results with
    | [result] =>
      match throwOnBadStatus result.statusCode with
      | Except.error s => { outcome := Except.error s, parametersAfter := parameters }
      | Except.ok _ =>
        { outcome := Except.ok ()
          parametersAfter := { parameters with
            samplingInterval := result.revisedSamplingInterval
            queueSize := result.revisedQueueSize } }
    | _ =>
      { outcome := Except.error UA_STATUSCODE_BADUNEXPECTEDERROR
        parametersAfter := parameters }

/-- UA_SetTriggeringResponse with the fields the source consumes. -/
structure UA_SetTriggeringResponse where
  serviceResult : StatusCode
  addResults : List StatusCode
  removeResults : List StatusCode
deriving DecidableEq

/-- The for-loops at source lines 294 to 299: throwOnBadStatus applied to each
status in order, stopping at the first bad one. -/
def throwOnBadStatusEach : List StatusCode → Except StatusCode Unit
  | [] => Except.ok ()
  | s :: rest =>
    match throwOnBadStatus s with
    | Except.error e => Except.error e
    | Except.ok _ => throwOnBadStatusEach rest

/-- setTriggering (source lines 276 to 300): sends the link lists, throws on a
bad service result, then iterates the add results and the remove results,
throwing at the first bad per-link status. -/
def setTriggering (subscriptionId triggeringItemId : Nat)
    (linksToAdd linksToRemove : List Nat)
    (response : UA_SetTriggeringResponse) : Except StatusCode Unit :=
  match throwOnBadStatus response.serviceResult with
  | Except.error s => Except.error s
  | Except.ok _ =>
    match throwOnBadStatusEach response.addResults with
    | Except.error s => Except.error s
    | Except.ok _ => throwOnBadStatusEach response.removeResults

/-- Result of a deletion wrapper: its outcome, the native bookkeeping after
the call, and the wrapper registry after the call. -/
structure DeleteOutcome (Native Registry : Type) where
  outcome : Except StatusCode Unit
  nativeAfter : Native
  registryAfter : Registry

/-- Model of the external native stack call
UA_Client_MonitoredItems_deleteSingle (spec sections 6 and 7): the native
bookkeeping is the list of live (subscriptionId, monitoredItemId) pairs;
deleting a live pair succeeds and removes it, deleting anything else fails
with BadMonitoredItemIdInvalid, as the test at
tests/subscription_monitoreditem.cpp line 138 expects. -/
def UA_Client_MonitoredItems_deleteSingle (native : List (Nat × Nat))
    (subId monId : Nat) : StatusCode × List (Nat × Nat) :=
  if (subId, monId) ∈ native then
    (UA_STATUSCODE_GOOD, native.filter (fun e => ! decide (e = (subId, monId))))
  else
    (UA_STATUSCODE_BADMONITOREDITEMIDINVALID, native)

/-- Model of the external native stack call UA_Server_deleteMonitoredItem
(spec sections 6 and 7), analogous to the client-side delete model. -/
def UA_Server_deleteMonitoredItem (native : List Nat) (monId : Nat) :
    StatusCode × List Nat :=
  if monId ∈ native then
    (UA_STATUSCODE_GOOD, native.filter (fun e => ! decide (e = monId)))
  else
    (UA_STATUSCODE_BADMONITOREDITEMIDINVALID, native)

/-- deleteMonitoredItem, client overload (source lines 302 to 307): calls the
native delete and throws on a bad status.  The wrapper registry is not touched
by this call; its entry is erased only by deleteMonitoredItemCallback when the
native stack confirms the deletion. -/
def deleteMonitoredItemClient (native : List (Nat × Nat))
    (registry : ClientRegistry) (subId monId : Nat) :
    DeleteOutcome (List (Nat × Nat)) ClientRegistry :=
  let nativeCall := UA_Client_MonitoredItems_deleteSingle native subId monId
  { outcome := throwOnBadStatus nativeCall.1
    nativeAfter := nativeCall.2
    registryAfter := registry }

/-- deleteMonitoredItem, server overload (source lines 309 to 313): calls the
native delete, throws on a bad status, then erases the registry entry
synchronously. -/
def deleteMonitoredItemServer (native : List Nat) (registry : ServerRegistry)
    (monId : Nat) : DeleteOutcome (List Nat) ServerRegistry :=
  let nativeCall := UA_Server_deleteMonitoredItem native monId
  match throwOnBadStatus nativeCall.1 with
  | Except.error s =>
    { outcome := Except.error s
      nativeAfter := nativeCall.2
      registryAfter := registry }
  | Except.ok _ =>
    { outcome := Except.ok ()
      nativeAfter := nativeCall.2
      registryAfter := serverErase monId registry }

/-! ## General lemmas about the embedded map operations -/

/-- An element is never a member of the list filtered by the predicate that
removes exactly that element. -/
theorem not_mem_filter_self {α : Type} [DecidableEq α] (l : List α) (a : α) :
    a ∉ l.filter (fun e => ! decide (e = a)) := by
  intro h
  have hp := (List.mem_filter.mp h).2
  simp at hp

/-! ## Claim theorems -/

/-- Claim C7: every data-change or event notification dispatched with a null
context address (which is also how an identifier without a registered context
reaches the dispatcher, since the native stack hands back exactly the context
address registered for the identifier) is silently dropped: the dispatcher's
observable trace is empty, so no user callback is invoked, and the dispatcher
has no error channel to signal through. -/
theorem notificationNullContextDropped :
    ∀ (monitoredItemId subId monId : Nat) (value : DataValue) (eventFields : List Variant),
    dataChangeNotificationCallbackServer monitoredItemId none value = [] ∧
    dataChangeNotificationCallbackClient subId monId none value = [] ∧
    eventNotificationCallback subId monId none eventFields = [] := by
  intro monitoredItemId subId monId value eventFields
  exact ⟨rfl, rfl, rfl⟩

/-- Claim C9: the delete-confirmation dispatcher erases the registry entry for
(subId, monId) on every invocation, whatever the context argument is; and when
the context address is null its trace holds only the erasure, so no user
delete callback is invoked. -/
theorem deleteConfirmationAlwaysErases :
    ∀ (subId monId : Nat) (monContext : Option ClientMonitoredItem)
      (registry : ClientRegistry),
    (deleteMonitoredItemCallback subId monId monContext registry).registryAfter =
      clientErase (subId, monId) registry ∧
    (deleteMonitoredItemCallback subId monId none registry).events =
      [Event.eraseEntry subId monId] := by
  intro subId monId monContext registry
  exact ⟨rfl, rfl⟩

/-- Claim C10: a notification that reaches a valid context whose stored
callback of the matching kind is the empty function object is silently
ignored: the data-change and event dispatchers produce an empty trace, and the
delete-confirmation dispatcher produces only the registry erasure, never a
user callback invocation. -/
theorem unsetCallbackSilentlyIgnored :
    ∀ (monitoredItemId subId monId : Nat) (value : DataValue)
      (eventFields : List Variant) (item : ReadValueId) (dcb ecb del : Option Nat)
      (registry : ClientRegistry),
    dataChangeNotificationCallbackServer monitoredItemId
      (some { itemToMonitor := item, dataChangeCallback := none }) value = [] ∧
    dataChangeNotificationCallbackClient subId monId
      (some { itemToMonitor := item, dataChangeCallback := none,
              eventCallback := ecb, deleteCallback := del }) value = [] ∧
    eventNotificationCallback subId monId
      (some { itemToMonitor := item, dataChangeCallback := dcb,
              eventCallback := none, deleteCallback := del }) eventFields = [] ∧
    (deleteMonitoredItemCallback subId monId
      (some { itemToMonitor := item, dataChangeCallback := dcb,
              eventCallback := ecb, deleteCallback := none }) registry).events =
      [Event.eraseEntry subId monId] := by
  intro monitoredItemId subId monId value eventFields item dcb ecb del registry
  exact ⟨rfl, rfl, rfl, rfl⟩

/-- Claim C5: when the delete-confirmation dispatcher runs with a non-null
context whose stored delete callback is set, the delete callback invocation
appears in the dispatcher's trace at a position strictly before the erasure of
the registry entry for (subId, monId). -/
theorem deleteCallbackInvokedBeforeErase (subId monId callback : Nat)
    (monitoredItem : ClientMonitoredItem) (registry : ClientRegistry)
    (h : monitoredItem.deleteCallback = some callback) :
    ∃ i j, i < j ∧
      (deleteMonitoredItemCallback subId monId (some monitoredItem) registry).events.get? i =
        some (Event.invokeDelete callback subId monId) ∧
      (deleteMonitoredItemCallback subId monId (some monitoredItem) registry).events.get? j =
        some (Event.eraseEntry subId monId) := by
  refine ⟨0, 1, Nat.zero_lt_one, ?_, ?_⟩ <;>
    simp [deleteMonitoredItemCallback, h]

/-- Witness for claim C5 at a concrete context with delete callback token 3. -/
theorem deleteCallbackInvokedBeforeEraseWitness :
    ∃ i j, i < j ∧
      (deleteMonitoredItemCallback 1 2
        (some { itemToMonitor := 7, dataChangeCallback := none,
                eventCallback := none, deleteCallback := some 3 }) []).events.get? i =
        some (Event.invokeDelete 3 1 2) ∧
      (deleteMonitoredItemCallback 1 2
        (some { itemToMonitor := 7, dataChangeCallback := none,
                eventCallback := none, deleteCallback := some 3 }) []).events.get? j =
        some (Event.eraseEntry 1 2) :=
  deleteCallbackInvokedBeforeErase 1 2 3
    { itemToMonitor := 7, dataChangeCallback := none,
      eventCallback := none, deleteCallback := some 3 } [] rfl

/-- Claim C2 (refuted by the code): the creation request built by
createMonitoredItemEvent always carries the value-initialised, empty event
filter — the function has no caller-supplied filter input at all (TODO at
source line 188) — and in particular the attached filter is never the
three-select-clause filter the event test intends to attach. -/
theorem createMonitoredItemEventAttachesEmptyFilter :
    (∀ (registry : ClientRegistry) (subscriptionId : Nat) (itemToMonitor : ReadValueId)
       (monitoringMode : MonitoringMode) (parameters : MonitoringParameters)
       (eventCallback deleteCallback : Option Nat) (result : UA_MonitoredItemCreateResult),
      (createMonitoredItemEvent registry subscriptionId itemToMonitor monitoringMode
          parameters eventCallback deleteCallback
          result).requestSent.requestedParameters.filter = some UA_EventFilter.empty) ∧
    UA_EventFilter.empty ≠ { selectClauses := [1, 2, 3], whereClauses := [] } := by
  constructor
  · intro registry subscriptionId itemToMonitor monitoringMode parameters ecb del result
    cases hr : throwOnBadStatus result.statusCode <;>
      simp [createMonitoredItemEvent, buildEventCreateRequest, hr]
  · decide

/-- Claim C3: for every successful createMonitoredItemDataChange (client and
server overloads), createMonitoredItemEvent and modifyMonitoredItem, the
revised sampling interval and revised queue size from the peer's response are
written back into the caller's parameters structure; the statement holds for
all requested values, hence also when the revised values equal them. -/
theorem revisedParametersWrittenBack
    (registry : ClientRegistry) (sregistry : ServerRegistry)
    (subscriptionId subscriptionId2 monitoredItemId : Nat)
    (itemToMonitor : ReadValueId) (monitoringMode : MonitoringMode)
    (dcb ecb del : Option Nat)
    (p1 p2 p3 p4 : MonitoringParameters)
    (result : UA_MonitoredItemCreateResult)
    (serviceResult : StatusCode) (mresult : UA_MonitoredItemModifyResult)
    (h : isBadStatus result.statusCode = false)
    (hs : isBadStatus serviceResult = false)
    (hm : isBadStatus mresult.statusCode = false) :
    (createMonitoredItemDataChangeClient registry subscriptionId itemToMonitor
        monitoringMode p1 dcb del result).parametersAfter =
      { p1 with samplingInterval := result.revisedSamplingInterval,
                queueSize := result.revisedQueueSize } ∧
    (createMonitoredItemDataChangeServer sregistry itemToMonitor monitoringMode
        p2 dcb result).parametersAfter =
      { p2 with samplingInterval := result.revisedSamplingInterval,
                queueSize := result.revisedQueueSize } ∧
    (createMonitoredItemEvent registry subscriptionId2 itemToMonitor monitoringMode
        p3 ecb del result).parametersAfter =
      { p3 with samplingInterval := result.revisedSamplingInterval,
                queueSize := result.revisedQueueSize } ∧
    (modifyMonitoredItem subscriptionId monitoredItemId p4
        { serviceResult := serviceResult, results := [mresult] }).parametersAfter =
      { p4 with samplingInterval := mresult.revisedSamplingInterval,
                queueSize := mresult.revisedQueueSize } := by
  refine ⟨?_, ?_, ?_, ?_⟩ <;>
    simp [createMonitoredItemDataChangeClient, createMonitoredItemDataChangeServer,
      createMonitoredItemEvent, modifyMonitoredItem, throwOnBadStatus, h, hs, hm]

/-- Witness for claim C3 at a concrete response whose revised values equal the
requested ones: the write-back still happens (and is observable as the
parameters being exactly the requested structure again). -/
theorem revisedParametersWrittenBackWitness :
    (createMonitoredItemDataChangeClient [] 1 7 MonitoringMode.reporting
        { samplingInterval := 5, queueSize := 10, discardOldest := true, timestamps := 0 }
        none none
        { statusCode := 0, monitoredItemId := 42, revisedSamplingInterval := 5,
          revisedQueueSize := 10 }).parametersAfter =
      { samplingInterval := 5, queueSize := 10, discardOldest := true,
        timestamps := 0 } := by
  have h := revisedParametersWrittenBack [] [] 1 1 2 7 MonitoringMode.reporting
    none none none
    { samplingInterval := 5, queueSize := 10, discardOldest := true, timestamps := 0 }
    { samplingInterval := 5, queueSize := 10, discardOldest := true, timestamps := 0 }
    { samplingInterval := 5, queueSize := 10, discardOldest := true, timestamps := 0 }
    { samplingInterval := 5, queueSize := 10, discardOldest := true, timestamps := 0 }
    { statusCode := 0, monitoredItemId := 42, revisedSamplingInterval := 5,
      revisedQueueSize := 10 }
    0
    { statusCode := 0, revisedSamplingInterval := 5, revisedQueueSize := 10 }
    (by decide) (by decide) (by decide)
  exact h.1

/-- Claim C4: when the peer rejects the whole creation request with a non-good
status, each creation wrapper fails with exactly that status and commits no
partial state: the caller's parameters and the registry after the call are the
ones before it. -/
theorem rejectedCreateCommitsNothing
    (registry : ClientRegistry) (sregistry : ServerRegistry)
    (subscriptionId subscriptionId2 : Nat) (itemToMonitor : ReadValueId)
    (monitoringMode : MonitoringMode) (dcb ecb del : Option Nat)
    (p1 p2 p3 : MonitoringParameters)
    (result : UA_MonitoredItemCreateResult)
    (h : isBadStatus result.statusCode = true) :
    createMonitoredItemDataChangeClient registry subscriptionId itemToMonitor
        monitoringMode p1 dcb del result =
      { requestSent := buildDataChangeCreateRequest itemToMonitor monitoringMode p1
        outcome := Except.error result.statusCode
        parametersAfter := p1
        registryAfter := registry } ∧
    createMonitoredItemDataChangeServer sregistry itemToMonitor monitoringMode
        p2 dcb result =
      { requestSent := buildDataChangeCreateRequest itemToMonitor monitoringMode p2
        outcome := Except.error result.statusCode
        parametersAfter := p2
        registryAfter := sregistry } ∧
    createMonitoredItemEvent registry subscriptionId2 itemToMonitor monitoringMode
        p3 ecb del result =
      { requestSent := buildEventCreateRequest itemToMonitor monitoringMode p3
        outcome := Except.error result.statusCode
        parametersAfter := p3
        registryAfter := registry } := by
  refine ⟨?_, ?_, ?_⟩ <;>
    simp [createMonitoredItemDataChangeClient, createMonitoredItemDataChangeServer,
      createMonitoredItemEvent, throwOnBadStatus, h]

/-- Witness for claim C4 at a rejected creation carrying
BadMonitoredItemIdInvalid. -/
theorem rejectedCreateCommitsNothingWitness :
    createMonitoredItemDataChangeClient [] 1 7 MonitoringMode.reporting
        { samplingInterval := 5, queueSize := 10, discardOldest := true, timestamps := 0 }
        none none
        { statusCode := 0x80420000, monitoredItemId := 42, revisedSamplingInterval := 6,
          revisedQueueSize := 11 } =
      { requestSent := buildDataChangeCreateRequest 7 MonitoringMode.reporting
          { samplingInterval := 5, queueSize := 10, discardOldest := true, timestamps := 0 }
        outcome := Except.error 0x80420000
        parametersAfter :=
          { samplingInterval := 5, queueSize := 10, discardOldest := true, timestamps := 0 }
        registryAfter := [] } := by
  have h := rejectedCreateCommitsNothing [] [] 1 2 7 MonitoringMode.reporting
    none none none
    { samplingInterval := 5, queueSize := 10, discardOldest := true, timestamps := 0 }
    { samplingInterval := 5, queueSize := 10, discardOldest := true, timestamps := 0 }
    { samplingInterval := 5, queueSize := 10, discardOldest := true, timestamps := 0 }
    { statusCode := 0x80420000, monitoredItemId := 42, revisedSamplingInterval := 6,
      revisedQueueSize := 11 }
    (by decide)
  exact h.1

/-- Claim C6: a successful server-role deleteMonitoredItem erases the registry
entry synchronously within the call, while a client-role deleteMonitoredItem
never modifies the registry within the call (the entry is erased only by the
delete-confirmation dispatcher deleteMonitoredItemCallback). -/
theorem deleteMonitoredItemRegistryEffects
    (native : List (Nat × Nat)) (snative : List Nat)
    (registry : ClientRegistry) (sregistry : ServerRegistry)
    (subId monId smonId : Nat)
    (hs : smonId ∈ snative) :
    (deleteMonitoredItemServer snative sregistry smonId).outcome = Except.ok () ∧
    (deleteMonitoredItemServer snative sregistry smonId).registryAfter =
      serverErase smonId sregistry ∧
    (deleteMonitoredItemClient native registry subId monId).registryAfter = registry := by
  refine ⟨?_, ?_, rfl⟩ <;>
    simp [deleteMonitoredItemServer, UA_Server_deleteMonitoredItem, hs,
      throwOnBadStatus, isBadStatus, UA_STATUSCODE_GOOD]

/-- Witness for claim C6 with one live server-side item and an arbitrary
client-side call. -/
theorem deleteMonitoredItemRegistryEffectsWitness :
    (deleteMonitoredItemServer [5] [(5, ⟨7, some 1⟩)] 5).outcome = Except.ok () ∧
    (deleteMonitoredItemServer [5] [(5, ⟨7, some 1⟩)] 5).registryAfter =
      serverErase 5 [(5, ⟨7, some 1⟩)] ∧
    (deleteMonitoredItemClient [(1, 2)] [] 1 2).registryAfter = [] :=
  deleteMonitoredItemRegistryEffects [(1, 2)] [5] [] [(5, ⟨7, some 1⟩)] 1 2 5 (by decide)

/-- Evaluation of the server-role delete wrapper when the native stack still
knows the item: the call succeeds, the native bookkeeping drops the item and
the registry entry is erased. -/
theorem deleteMonitoredItemServer_present (native : List Nat) (registry : ServerRegistry)
    (monId : Nat) (h : monId ∈ native) :
    deleteMonitoredItemServer native registry monId =
      { outcome := Except.ok ()
        nativeAfter := native.filter (fun e => ! decide (e = monId))
        registryAfter := serverErase monId registry } := by
  simp [deleteMonitoredItemServer, UA_Server_deleteMonitoredItem, h,
    throwOnBadStatus, isBadStatus, UA_STATUSCODE_GOOD]

/-- Evaluation of the server-role delete wrapper on an id the native stack
does not know: the call fails with BadMonitoredItemIdInvalid and neither the
native bookkeeping nor the registry changes. -/
theorem deleteMonitoredItemServer_absent (native : List Nat) (registry : ServerRegistry)
    (monId : Nat) (h : monId ∉ native) :
    deleteMonitoredItemServer native registry monId =
      { outcome := Except.error UA_STATUSCODE_BADMONITOREDITEMIDINVALID
        nativeAfter := native
        registryAfter := registry } := by
  have hbad : isBadStatus UA_STATUSCODE_BADMONITOREDITEMIDINVALID = true := by decide
  simp [deleteMonitoredItemServer, UA_Server_deleteMonitoredItem, h,
    throwOnBadStatus, hbad]

/-- Evaluation of the client-role delete wrapper when the native stack still
knows the pair: the call succeeds and the wrapper registry is untouched. -/
theorem deleteMonitoredItemClient_present (native : List (Nat × Nat))
    (registry : ClientRegistry) (subId monId : Nat) (h : (subId, monId) ∈ native) :
    deleteMonitoredItemClient native registry subId monId =
      { outcome := Except.ok ()
        nativeAfter := native.filter (fun e => ! decide (e = (subId, monId)))
        registryAfter := registry } := by
  simp [deleteMonitoredItemClient, UA_Client_MonitoredItems_deleteSingle, h,
    throwOnBadStatus, isBadStatus, UA_STATUSCODE_GOOD]

/-- Evaluation of the client-role delete wrapper on a pair the native stack
does not know: the call fails with BadMonitoredItemIdInvalid and nothing
changes. -/
theorem deleteMonitoredItemClient_absent (native : List (Nat × Nat))
    (registry : ClientRegistry) (subId monId : Nat) (h : (subId, monId) ∉ native) :
    deleteMonitoredItemClient native registry subId monId =
      { outcome := Except.error UA_STATUSCODE_BADMONITOREDITEMIDINVALID
        nativeAfter := native
        registryAfter := registry } := by
  have hbad : isBadStatus UA_STATUSCODE_BADMONITOREDITEMIDINVALID = true := by decide
  simp [deleteMonitoredItemClient, UA_Client_MonitoredItems_deleteSingle, h,
    throwOnBadStatus, hbad]

/-- Claim C8: deleting a monitored item a second time after a successful
deletion fails with BadMonitoredItemIdInvalid and is otherwise a no-op.  For
the server role the second call leaves the native bookkeeping and the registry
exactly as the first call left them (no second erasure).  For the client role,
after the first call and its delete confirmation (which erases the registry
entry), the second call fails the same way and leaves both the native
bookkeeping and the registry as they were. -/
theorem doubleDeleteFailsInvalidId
    (native : List (Nat × Nat)) (snative : List Nat)
    (registry : ClientRegistry) (sregistry : ServerRegistry)
    (subId monId smonId : Nat)
    (hc : (subId, monId) ∈ native) (hsv : smonId ∈ snative) :
    ((deleteMonitoredItemServer snative sregistry smonId).outcome = Except.ok () ∧
     deleteMonitoredItemServer
        (deleteMonitoredItemServer snative sregistry smonId).nativeAfter
        (deleteMonitoredItemServer snative sregistry smonId).registryAfter smonId =
      { outcome := Except.error UA_STATUSCODE_BADMONITOREDITEMIDINVALID
        nativeAfter := (deleteMonitoredItemServer snative sregistry smonId).nativeAfter
        registryAfter :=
          (deleteMonitoredItemServer snative sregistry smonId).registryAfter }) ∧
    ((deleteMonitoredItemClient native registry subId monId).outcome = Except.ok () ∧
     deleteMonitoredItemClient
        (deleteMonitoredItemClient native registry subId monId).nativeAfter
        (deleteMonitoredItemCallback subId monId (clientFind (subId, monId) registry)
          (deleteMonitoredItemClient native registry subId monId).registryAfter).registryAfter
        subId monId =
      { outcome := Except.error UA_STATUSCODE_BADMONITOREDITEMIDINVALID
        nativeAfter := (deleteMonitoredItemClient native registry subId monId).nativeAfter
        registryAfter :=
          (deleteMonitoredItemCallback subId monId (clientFind (subId, monId) registry)
            (deleteMonitoredItemClient native registry subId monId).registryAfter).registryAfter
      }) := by
  have hs1 := deleteMonitoredItemServer_present snative sregistry smonId hsv
  have hs2 := deleteMonitoredItemServer_absent
    (snative.filter (fun e => ! decide (e = smonId)))
    (serverErase smonId sregistry) smonId (not_mem_filter_self snative smonId)
  have hc1 := deleteMonitoredItemClient_present native registry subId monId hc
  have hc2 := deleteMonitoredItemClient_absent
    (native.filter (fun e => ! decide (e = (subId, monId))))
    (deleteMonitoredItemCallback subId monId (clientFind (subId, monId) registry)
      registry).registryAfter
    subId monId (not_mem_filter_self native (subId, monId))
  refine ⟨⟨?_, ?_⟩, ?_, ?_⟩ <;> simp [hs1, hs2, hc1, hc2]

/-- Witness for claim C8 at a one-item native bookkeeping for each role. -/
theorem doubleDeleteFailsInvalidIdWitness :
    ((deleteMonitoredItemServer [5] [(5, ⟨9, some 1⟩)] 5).outcome = Except.ok () ∧
     deleteMonitoredItemServer
        (deleteMonitoredItemServer [5] [(5, ⟨9, some 1⟩)] 5).nativeAfter
        (deleteMonitoredItemServer [5] [(5, ⟨9, some 1⟩)] 5).registryAfter 5 =
      { outcome := Except.error UA_STATUSCODE_BADMONITOREDITEMIDINVALID
        nativeAfter := (deleteMonitoredItemServer [5] [(5, ⟨9, some 1⟩)] 5).nativeAfter
        registryAfter :=
          (deleteMonitoredItemServer [5] [(5, ⟨9, some 1⟩)] 5).registryAfter }) ∧
    ((deleteMonitoredItemClient [(1, 2)] [((1, 2), ⟨9, none, none, some 3⟩)]
        1 2).outcome = Except.ok () ∧
     deleteMonitoredItemClient
        (deleteMonitoredItemClient [(1, 2)] [((1, 2), ⟨9, none, none, some 3⟩)]
          1 2).nativeAfter
        (deleteMonitoredItemCallback 1 2
          (clientFind (1, 2) [((1, 2), ⟨9, none, none, some 3⟩)])
          (deleteMonitoredItemClient [(1, 2)] [((1, 2), ⟨9, none, none, some 3⟩)]
            1 2).registryAfter).registryAfter
        1 2 =
      { outcome := Except.error UA_STATUSCODE_BADMONITOREDITEMIDINVALID
        nativeAfter :=
          (deleteMonitoredItemClient [(1, 2)] [((1, 2), ⟨9, none, none, some 3⟩)]
            1 2).nativeAfter
        registryAfter :=
          (deleteMonitoredItemCallback 1 2
            (clientFind (1, 2) [((1, 2), ⟨9, none, none, some 3⟩)])
            (deleteMonitoredItemClient [(1, 2)] [((1, 2), ⟨9, none, none, some 3⟩)]
              1 2).registryAfter).registryAfter }) :=
  doubleDeleteFailsInvalidId [(1, 2)] [5] [((1, 2), ⟨9, none, none, some 3⟩)]
    [(5, ⟨9, some 1⟩)] 1 2 5 (by decide) (by decide)

/-- Evaluation of throwOnBadStatusEach as the first bad status of the list:
the loop throws exactly the first status that isBadStatus holds of, and
returns unit when there is none. -/
theorem throwOnBadStatusEach_eq_find (l : List StatusCode) :
    throwOnBadStatusEach l =
      match l.find? isBadStatus with
      | some s => Except.error s
      | none => Except.ok () := by
  induction l with
  | nil => rfl
  | cons s rest ih =>
    cases hb : isBadStatus s with
    | true =>
      simp [throwOnBadStatusEach, throwOnBadStatus, hb, List.find?_cons_of_pos]
    | false =>
      simpa [throwOnBadStatusEach, throwOnBadStatus, hb, List.find?_cons_of_neg] using ih

/-- The two status-checking loops of setTriggering behave as one loop over the
concatenation of the add results and the remove results. -/
theorem throwOnBadStatusEach_append (a b : List StatusCode) :
    throwOnBadStatusEach (a ++ b) =
      match throwOnBadStatusEach a with
      | Except.error s => Except.error s
      | Except.ok _ => throwOnBadStatusEach b := by
  induction a with
  | nil => rfl
  | cons s rest ih =>
    cases hs : throwOnBadStatus s with
    | error e => simp [throwOnBadStatusEach, hs]
    | ok u => simpa [throwOnBadStatusEach, hs] using ih

/-- The property claim C1 asserts of setTriggering: the operation surfaces the
per-link statuses of the response.  In particular, for fixed link lists, its
result must determine the full per-link status lists of any two responses
whose result counts match the request — a necessary condition for returning
exactly N plus M per-link statuses with only the invalid links marked failed,
rather than one collapsed status. -/
def SetTriggeringSurfacesPerLink : Prop :=
  ∀ (subscriptionId triggeringItemId : Nat) (linksToAdd linksToRemove : List Nat)
    (r1 r2 : UA_SetTriggeringResponse),
    r1.serviceResult = UA_STATUSCODE_GOOD → r2.serviceResult = UA_STATUSCODE_GOOD →
    r1.addResults.length = linksToAdd.length → r2.addResults.length = linksToAdd.length →
    r1.removeResults.length = linksToRemove.length →
    r2.removeResults.length = linksToRemove.length →
    setTriggering subscriptionId triggeringItemId linksToAdd linksToRemove r1 =
      setTriggering subscriptionId triggeringItemId linksToAdd linksToRemove r2 →
    r1.addResults = r2.addResults ∧ r1.removeResults = r2.removeResults

/-- Claim C1 counterexample: two responses to the same two-add-link request —
one with the first link good and the second invalid, one with the opposite
pattern — produce the same collapsed outcome of setTriggering (a single thrown
BadMonitoredItemIdInvalid), so the operation does not surface per-link
statuses and partial failure is collapsed into one status. -/
theorem setTriggeringCollapsesPartialFailure : ¬ SetTriggeringSurfacesPerLink := by
  intro h
  have hbad : isBadStatus 0x80420000 = true := by decide
  have hgood : isBadStatus 0 = false := by decide
  have heq :
      setTriggering 1 2 [10, 11] []
          { serviceResult := 0, addResults := [0, 0x80420000], removeResults := [] } =
        setTriggering 1 2 [10, 11] []
          { serviceResult := 0, addResults := [0x80420000, 0], removeResults := [] } := by
    simp [setTriggering, throwOnBadStatusEach, throwOnBadStatus, hbad, hgood]
  have hcontra := h 1 2 [10, 11] []
    { serviceResult := 0, addResults := [0, 0x80420000], removeResults := [] }
    { serviceResult := 0, addResults := [0x80420000, 0], removeResults := [] }
    rfl rfl rfl rfl rfl rfl heq
  exact absurd hcontra.1 (by decide)

/-- Claim C1 amended: setTriggering does not return per-link statuses; after a
good service result it throws the first bad status among the add results
followed by the remove results, and returns unit only when every per-link
status is good.  A partial failure is thus collapsed into a single failure
carrying the first failing link status. -/
theorem setTriggeringThrowsFirstBadLinkStatus (subscriptionId triggeringItemId : Nat)
    (linksToAdd linksToRemove : List Nat) (response : UA_SetTriggeringResponse)
    (h : isBadStatus response.serviceResult = false) :
    setTriggering subscriptionId triggeringItemId linksToAdd linksToRemove response =
      match (response.addResults ++ response.removeResults).find? isBadStatus with
      | some s => Except.error s
      | none => Except.ok () := by
  rw [← throwOnBadStatusEach_eq_find, throwOnBadStatusEach_append]
  simp [setTriggering, throwOnBadStatus, h]

/-- Witness for the amended claim C1 at a request with two add links and one
remove link, whose response marks the second add link invalid: the call
throws that first bad per-link status. -/
theorem setTriggeringThrowsFirstBadLinkStatusWitness :
    setTriggering 1 2 [10, 11] [12]
        { serviceResult := 0, addResults := [0, 0x80420000], removeResults := [0] } =
      Except.error 0x80420000 := by
  have hbad : isBadStatus 0x80420000 = true := by decide
  have hgood : isBadStatus 0 = false := by decide
  have h := setTriggeringThrowsFirstBadLinkStatus 1 2 [10, 11] [12]
    { serviceResult := 0, addResults := [0, 0x80420000], removeResults := [0] }
    (by decide)
  simpa [hbad, hgood] using h
